import Mathlib

/-!
Shallow embedding of the canvas state orchestrator of the live-image-gen
repository, together with theorems settling the specification claims.

The embedding translates:
  * the `ImageInfo` record and page state of the canvas page component
    (`ImageGeneratorPage`);
  * `clampPositionToBounds`, `handleUpdatePosition`, `handleDuplicateImage`,
    `handleArrangeGrid`, `handleGenerateVariations`,
    `handleRegenerateSelectedImage`, `handleSaveImage` and the debounced
    regeneration effect of that component;
  * `generateImageVariations` from `services/falService.ts` and
    `saveImageBlob` from `services/supabaseService.ts`.

Pixel coordinates are modelled as rationals (the source computes with
JavaScript numbers; every computation involved divides at most by two, so
rationals are exact here).  External asynchronous calls are modelled by
passing their outcome as an explicit argument; each orchestrator handler is
embedded as a pure function from the page state (and the outcomes of the
external calls it awaits) to the resulting page state.  JavaScript truthiness
tests on strings (`if (s)`) are translated as `s ≠ ""`, and on optional
values as a match on `Option`.
-/

/-- A canvas-local pixel position (the `{x, y}` objects of the source). -/
structure Position where
  x : ℚ
  y : ℚ
deriving Repr, DecidableEq

/-- The `ImageInfo` interface of the canvas page: one image entity on the
canvas. -/
structure ImageInfo where
  id : String
  src : String
  prompt : String
  position : Position
  parentId : Option String := none
  isLoading : Bool := false
  isPlaceholder : Bool := false
deriving Repr, DecidableEq

/-- The `GeneratedImage` interface of `types/generatedImage.ts`: the result
of one generation attempt.  Optional fields are `Option`s; `id` is a plain
string as in the source. -/
structure GeneratedImage where
  id : String
  imageUrl : Option String := none
  promptUsed : Option String := none
  error : Option String := none
deriving Repr, DecidableEq

/-- The dimensions of the canvas container element that the handlers read
(`offsetWidth`, `offsetHeight`, `scrollHeight`). -/
structure Container where
  offsetWidth : ℚ
  offsetHeight : ℚ
  scrollHeight : ℚ
deriving Repr, DecidableEq

/-- The reactive state of `ImageGeneratorPage` that the modelled handlers
read and write: prompt, debounced prompt, entity collection, selection,
error banner, and the `isRegeneratingRef` latch.  (The saved-images dropdown
state is not needed by any modelled handler's collection logic.) -/
structure PageState where
  prompt : String
  debouncedPrompt : String
  images : List ImageInfo
  selectedImageId : Option String
  error : Option String
  isRegenerating : Bool
deriving Repr, DecidableEq

/-- Constant `IMAGE_SIZE` of the page component. -/
def IMAGE_SIZE : ℚ := 150

/-- Constant `DUPLICATION_OFFSET` of the page component. -/
def DUPLICATION_OFFSET : ℚ := 25

/-- Constant `GRID_GAP` of the page component. -/
def GRID_GAP : ℚ := 20

/-- Constant `HEADER_HEIGHT` of the page component. -/
def HEADER_HEIGHT : ℚ := 80

/-- Model of `clampPositionToBounds` of the page component: clamp a position into the
container, treating the item as `itemSize × itemSize`; pass-through when the
container ref is null. -/
def clampPositionToBounds (position : Position) (container : Option Container)
    (itemSize : ℚ) : Position :=
  match container with
  | none => position
  | some c =>
    let maxX := max 0 (c.offsetWidth - itemSize)
    let effectiveHeight := max c.offsetHeight c.scrollHeight
    let maxY := max 0 (effectiveHeight - itemSize)
    { x := max 0 (min position.x maxX), y := max 0 (min position.y maxY) }

/-- Model of `handleUpdatePosition` of the page component: store the supplied position
on the entity with the given id, verbatim (no clamping). -/
def handleUpdatePosition (st : PageState) (id : String)
    (newPosition : Position) : PageState :=
  { st with
    images := st.images.map (fun img =>
      if img.id = id then { img with position := newPosition } else img) }

/-- Model of `handleDuplicateImage` of the page component.  The outcome of the awaited
`generateUuid()` call is passed as the `uuid` argument; the source treats an
empty string as failure (`if (!uuid)`). -/
def handleDuplicateImage (st : PageState) (container : Option Container)
    (sourceImageId : String) (uuid : String) : PageState :=
  let st0 := { st with error := none }
  match st0.images.find? (fun img => img.id = sourceImageId) with
  | none => { st0 with error := some "Could not find the image to duplicate." }
  | some sourceImage =>
    let newX := sourceImage.position.x + IMAGE_SIZE + DUPLICATION_OFFSET
    let newY := sourceImage.position.y
    let position := clampPositionToBounds ⟨newX, newY⟩ container IMAGE_SIZE
    if uuid = "" then
      { st0 with error := some "Failed to get image to duplicate." }
    else
      let newImage : ImageInfo :=
        { id := uuid
          src := sourceImage.src
          prompt := sourceImage.prompt
          position := position
          parentId := some sourceImageId
          isLoading := false
          isPlaceholder := false }
      { st0 with
        images := st0.images ++ [newImage]
        selectedImageId := some newImage.id }

/-- List map carrying the element index, mirroring `array.map((a, i) => ...)`
of the source (the grid-arrange handler and the placeholder construction both
map with indices). -/
def mapWithIndex {α β : Type} (f : Nat → α → β) : Nat → List α → List β
  | _, [] => []
  | i, a :: as => f i a :: mapWithIndex f (i + 1) as

/-- Grid slot position computed by `handleArrangeGrid` for the entity at a
given index, as a function of the container width only (the per-entity body
of the `images.map` in the source). -/
def arrangeGridPosition (containerWidth : ℚ) (index : Nat) : Position :=
  let availableWidth := containerWidth - GRID_GAP
  let itemTotalWidth := IMAGE_SIZE + GRID_GAP
  let numColumns : Nat := max 1 (availableWidth / itemTotalWidth).floor.toNat
  let gridWidth : ℚ :=
    (numColumns : ℚ) * IMAGE_SIZE + ((numColumns - 1 : Nat) : ℚ) * GRID_GAP
  let offsetX := max GRID_GAP ((containerWidth - gridWidth) / 2)
  let offsetY := HEADER_HEIGHT + GRID_GAP
  let row : Nat := index / numColumns
  let col : Nat := index % numColumns
  let newX := offsetX + (col : ℚ) * itemTotalWidth
  let newY := offsetY + (row : ℚ) * (IMAGE_SIZE + GRID_GAP)
  let clampedX := max 0 (min newX (containerWidth - IMAGE_SIZE))
  { x := clampedX, y := newY }

/-- Model of `handleArrangeGrid` of the page component: reflow every entity into a
centred grid determined by the container width, then clear the selection.
The `minHeight` style written onto the container DOM node is outside the
modelled state (it does not feed back into any computed position). -/
def handleArrangeGrid (st : PageState) (container : Option Container) :
    PageState :=
  match container with
  | none => { st with error := some "Failed to arrange images" }
  | some c =>
    if st.images.length = 0 then
      { st with error := some "Failed to arrange images" }
    else
      { st with
        error := none
        images := mapWithIndex
          (fun i image => { image with position := arrangeGridPosition c.offsetWidth i })
          0 st.images
        selectedImageId := none }

/-- JavaScript truthiness of an optional string (`undefined` and `""` are
falsy), used wherever the source tests an optional string field directly. -/
def optStringTruthy (o : Option String) : Bool :=
  match o with
  | some s => s ≠ ""
  | none => false

/-- JavaScript `a || b` on a string default: the left operand when it is
present and non-empty, the default otherwise (`result.promptUsed || newPrompt`
and similar expressions of the source). -/
def stringOrElse (o : Option String) (default : String) : String :=
  match o with
  | some s => if s = "" then default else s
  | none => default

/-- Result shape of `getPromptVariants` in `services/openaiService.ts`:
`{ variants: string[]; error?: string }`. -/
structure PromptVariantsResult where
  variants : List String
  error : Option String := none
deriving Repr, DecidableEq

/-- Condition of the augmentation-failure branch of `generateImageVariations`
in `services/falService.ts`:
`promptVariants.error || !promptVariants.variants || promptVariants.variants.length === 0`. -/
def augmentationFailed (pv : PromptVariantsResult) : Bool :=
  optStringTruthy pv.error || pv.variants.isEmpty

/-- Model of `generateImageVariations` of `services/falService.ts`.  The
awaited `getPromptVariants` call is passed as `getPromptVariantsResult` and
the settled outcome of each per-variant `generateImage(...).catch(...)` call
as the oracle `generateImageResult` (indexed by variant position and variant
prompt; the `.catch` wrapper guarantees each promise settles to a
`GeneratedImage`, so the oracle is total).  The parent-relationship logging
(`StoreImageRelationshipDb`) returns no data into the result list and is not
modelled. -/
def generateImageVariations (getPromptVariantsResult : PromptVariantsResult)
    (generateImageResult : Nat → String → GeneratedImage)
    (originalPrompt : String) : List GeneratedImage :=
  if augmentationFailed getPromptVariantsResult then
    [{ id := ""
       imageUrl := none
       promptUsed := some originalPrompt
       error := some ("Prompt Variation Generation failed: " ++
         stringOrElse getPromptVariantsResult.error "Failed to get prompt variants.") }]
  else
    mapWithIndex (fun i variantPrompt => generateImageResult i variantPrompt) 0
      getPromptVariantsResult.variants

/-- Derived placeholder id used in `handleGenerateVariations`:
`` `${parentId}-placeholder-${index}-${Date.now()}` ``, with the `Date.now()`
timestamp passed in as `now`. -/
def variationPlaceholderId (parentId : String) (index : Nat) (now : Nat) : String :=
  parentId ++ "-placeholder-" ++ toString index ++ "-" ++ toString now

/-- Target positions for the four variation placeholders (above, below, left,
right of the parent), before clamping. -/
def variationOffsets (parentPos : Position) : List Position :=
  [{ x := parentPos.x, y := parentPos.y - (IMAGE_SIZE + GRID_GAP) },
   { x := parentPos.x, y := parentPos.y + (IMAGE_SIZE + GRID_GAP) },
   { x := parentPos.x - (IMAGE_SIZE + GRID_GAP), y := parentPos.y },
   { x := parentPos.x + (IMAGE_SIZE + GRID_GAP), y := parentPos.y }]

/-- Placeholder entities inserted synchronously by `handleGenerateVariations`
before the variation call: loading placeholder at each clamped target
position, with the derived ids. -/
def makeVariationPlaceholders (parentId parentPrompt : String)
    (parentPos : Position) (container : Option Container) (now : Nat) :
    List ImageInfo :=
  mapWithIndex (fun index pos =>
    { id := variationPlaceholderId parentId index now
      src := ""
      prompt := "Loading variation for: " ++ parentPrompt
      position := clampPositionToBounds pos container IMAGE_SIZE
      parentId := some parentId
      isPlaceholder := true
      isLoading := true }) 0 (variationOffsets parentPos)

/-- Per-result failure test of the reconciliation loop:
`result.error || !result.id || !result.imageUrl`. -/
def resultFailed (r : GeneratedImage) : Bool :=
  optStringTruthy r.error || r.id = "" || !optStringTruthy r.imageUrl

/-- Removal of the first entity bearing a given id, mirroring
`newImages.splice(placeholderIndex, 1)` after `findIndex`. -/
def removeFirstById (tempId : String) : List ImageInfo → List ImageInfo
  | [] => []
  | img :: rest =>
    if img.id = tempId then rest else img :: removeFirstById tempId rest

/-- In-place replacement of the first entity bearing a given id, mirroring
`newImages[placeholderIndex] = ...` after `findIndex`. -/
def replaceFirstById (tempId : String) (f : ImageInfo → ImageInfo) :
    List ImageInfo → List ImageInfo
  | [] => []
  | img :: rest =>
    if img.id = tempId then f img :: rest else img :: replaceFirstById tempId f rest

/-- Membership test `newImages.findIndex(img => img.id === tempId) !== -1`. -/
def containsId (images : List ImageInfo) (tempId : String) : Bool :=
  images.any (fun img => img.id = tempId)

/-- Promotion of a placeholder to a real entity on per-result success: the
spread `{...placeholder, id, src, prompt, isLoading: false, isPlaceholder:
false}` of the reconciliation loop (position and `parentId` are kept). -/
def promotePlaceholder (parentPrompt : String) (r : GeneratedImage)
    (ph : ImageInfo) : ImageInfo :=
  { ph with
    id := r.id
    src := r.imageUrl.getD ""
    prompt := stringOrElse r.promptUsed ("Variant of: " ++ parentPrompt)
    isLoading := false
    isPlaceholder := false }

/-- One iteration of the reconciliation `results.forEach((result, index) =>
...)` body of `handleGenerateVariations`, acting on the evolving collection
paired with the `updateOccurred` flag. -/
def reconStep (placeholderIds : List String) (parentPrompt : String)
    (acc : List ImageInfo × Bool) (index : Nat) (result : GeneratedImage) :
    List ImageInfo × Bool :=
  match placeholderIds[index]? with
  | none => acc
  | some tempId =>
    if tempId = "" then acc
    else if containsId acc.1 tempId then
      if resultFailed result then
        (removeFirstById tempId acc.1, acc.2)
      else
        (replaceFirstById tempId (promotePlaceholder parentPrompt result) acc.1, true)
    else acc

/-- Fold of `reconStep` along the result list, carrying the running index. -/
def reconcileFrom (placeholderIds : List String) (parentPrompt : String) :
    Nat → List ImageInfo × Bool → List GeneratedImage → List ImageInfo × Bool
  | _, acc, [] => acc
  | i, acc, r :: rs =>
    reconcileFrom placeholderIds parentPrompt (i + 1)
      (reconStep placeholderIds parentPrompt acc i r) rs

/-- The reconciliation `setImages` updater of `handleGenerateVariations`
applied to a collection, returning the updated collection and the
`updateOccurred` flag. -/
def reconcileVariationResults (placeholderIds : List String)
    (parentPrompt : String) (images : List ImageInfo)
    (results : List GeneratedImage) : List ImageInfo × Bool :=
  reconcileFrom placeholderIds parentPrompt 0 (images, false) results

/-- Aggregate-failure test of `handleGenerateVariations`:
`results.length > 0 && results[0].error` (the length guard is folded into the
match, and the error field is tested with JavaScript truthiness). -/
def firstResultHasError (results : List GeneratedImage) : Bool :=
  match results with
  | [] => false
  | r :: _ => optStringTruthy r.error

/-- Model of `handleGenerateVariations` of the page component, from invocation
through reconciliation of the awaited `generateImageVariations` results
(passed as `results`; `now` stands for the `Date.now()` read at placeholder
creation).  The catch branch for an exception thrown by the awaited call
itself is not reached when `results` is a value, so it is not part of this
function. -/
def handleGenerateVariations (st : PageState) (container : Option Container)
    (now : Nat) (parentId parentPrompt : String)
    (results : List GeneratedImage) : PageState :=
  let st0 := { st with error := none }
  match st0.images.find? (fun img => img.id = parentId) with
  | none => { st0 with error := some "Could not find the parent image." }
  | some parentImage =>
    let placeholders :=
      makeVariationPlaceholders parentId parentPrompt parentImage.position container now
    let placeholderIds := placeholders.map ImageInfo.id
    let afterInsert := st0.images ++ placeholders
    let reconciled :=
      reconcileVariationResults placeholderIds parentPrompt afterInsert results
    if !reconciled.2 && !results.isEmpty && firstResultHasError results then
      { st0 with
        images := reconciled.1.filter (fun img => !placeholderIds.contains img.id)
        error := some "Generation of variants failed" }
    else
      { st0 with images := reconciled.1 }

/-- Helper of the regeneration handler: the two `setImages` calls that toggle
`isLoading` on the entity with the given id. -/
def setLoadingById (images : List ImageInfo) (imageId : String) (flag : Bool) :
    List ImageInfo :=
  images.map (fun img =>
    if img.id = imageId then { img with isLoading := flag } else img)

/-- First phase of `handleRegenerateSelectedImage`, up to the awaited
`generateImage` call: the check of the `isRegeneratingRef` latch, setting the
latch, clearing the error banner and marking the target as loading.  The
boolean reports whether the attempt started (`false` means it was ignored
because a regeneration was already in flight). -/
def regenBegin (st : PageState) (imageId : String) : PageState × Bool :=
  if st.isRegenerating then (st, false)
  else
    ({ st with
        isRegenerating := true
        error := none
        images := setLoadingById st.images imageId true }, true)

/-- Second phase of `handleRegenerateSelectedImage`, from the settlement of
the awaited `generateImage` call: the success branch (`result.imageUrl`
truthy), the no-url branch, and the catch branch, each followed by the
`finally` block that releases the latch.  The call outcome is a returned
`GeneratedImage` (`Except.ok`) or a thrown error message (`Except.error`). -/
def regenFinish (st : PageState) (imageId newPrompt : String)
    (outcome : Except String GeneratedImage) : PageState :=
  let st1 : PageState :=
    match outcome with
    | .ok result =>
      if optStringTruthy result.imageUrl then
        { st with
          images := st.images.map (fun img =>
            if img.id = imageId then
              { img with
                id := result.id
                src := result.imageUrl.getD ""
                prompt := stringOrElse result.promptUsed newPrompt
                isLoading := false
                isPlaceholder := false }
            else img)
          selectedImageId := some result.id }
      else
        { st with
          error := some "An error occurred when generating images."
          images := setLoadingById st.images imageId false }
    | .error message =>
      { st with
        error := some (if message = "" then "An error occurred when generating images"
          else message)
        images := setLoadingById st.images imageId false }
  { st1 with isRegenerating := false }

/-- Model of `handleRegenerateSelectedImage` of the page component as one
atomic run: the latch check-and-set, then — only if the attempt started — the
settlement of the generation call. -/
def handleRegenerateSelectedImage (st : PageState) (imageId newPrompt : String)
    (outcome : Except String GeneratedImage) : PageState :=
  let b := regenBegin st imageId
  if b.2 then regenFinish b.1 imageId newPrompt outcome else b.1

/-- Model of JavaScript `String.prototype.trim()` as applied to the debounced
prompt: strip leading and trailing whitespace characters.  Implemented by
structural recursion over the character list (rather than through
`String.trim`) so that concrete instances reduce. -/
def jsTrim (s : String) : String :=
  ⟨(((s.data.dropWhile Char.isWhitespace).reverse).dropWhile Char.isWhitespace).reverse⟩

/-- Condition of the debounced regeneration effect of the page component: the
outer guard `selectedImageId && debouncedPrompt.trim() &&
!isRegeneratingRef.current` followed by the inner guard `selectedImage &&
selectedImage.prompt !== debouncedPrompt` on the entity found by
`images.find`. -/
def regenerationTriggered (st : PageState) : Bool :=
  match st.selectedImageId with
  | none => false
  | some selectedId =>
    if selectedId ≠ "" ∧ jsTrim st.debouncedPrompt ≠ "" ∧ st.isRegenerating = false then
      match st.images.find? (fun img => img.id = selectedId) with
      | some selectedImage => decide (selectedImage.prompt ≠ st.debouncedPrompt)
      | none => false
    else false

/-- Result shape returned by the persistence functions of
`services/supabaseService.ts`: `{ error: string | null }`. -/
structure SupabaseResult where
  error : Option String := none
deriving Repr, DecidableEq

/-- Outcomes of the external sub-calls performed inside `saveImageBlob`
(`fetch`, the storage upload, the database update), plus a field standing for
an exception thrown anywhere inside its `try` block. -/
structure SaveImageBlobCalls where
  supabaseAvailable : Bool
  fetchOk : Bool
  uploadError : Option String := none
  updateError : Option String := none
  thrown : Option String := none
deriving Repr, DecidableEq

/-- Model of `saveImageBlob` of `services/supabaseService.ts`.  Every branch,
including the catch branch, returns a `SupabaseResult`; the function never
propagates an exception to its caller.  (The blob-type and storage-path
computation only feeds the abstracted upload call and does not affect the
returned result, so it is not modelled.) -/
def saveImageBlob (calls : SaveImageBlobCalls) : SupabaseResult :=
  if !calls.supabaseAvailable then
    { error := some "Supabase client not available." }
  else
    match calls.thrown with
    | some message => { error := some message }
    | none =>
      if !calls.fetchOk then { error := some "Failed to download image from URL" }
      else if calls.uploadError.isSome then { error := some "Failed to save Image" }
      else if calls.updateError.isSome then { error := some "Failed to save image" }
      else { error := none }

/-- Model of `handleSaveImage` of the page component.  The awaited
`saveImageBlob` call either returns a `SupabaseResult` (which the source
discards, hence the wildcard) or throws.  The boolean output records whether
`loadSavedImagesForDropdown()` — the saved-image catalog refresh — was
invoked. -/
def handleSaveImage (st : PageState)
    (saveCall : Except String SupabaseResult) : PageState × Bool :=
  match saveCall with
  | .ok _ => (st, true)
  | .error _ => ({ st with error := some "Failed to save image" }, false)

/-! Concrete fixtures used by witnesses, counterexamples and the concrete
scenario conjuncts: a two-entity canvas inside an 800 × 600 container. -/

/-- Fixture: a real entity with id `"a"` at position (100, 100). -/
def imgA : ImageInfo :=
  { id := "a", src := "urlA", prompt := "a cat", position := { x := 100, y := 100 } }

/-- Fixture: a real entity with id `"b"` at position (300, 100), derived from
`"a"`. -/
def imgB : ImageInfo :=
  { id := "b", src := "urlB", prompt := "a dog", position := { x := 300, y := 100 },
    parentId := some "a" }

/-- Fixture: an 800 × 600 container whose content does not overflow. -/
def sampleContainer : Container :=
  { offsetWidth := 800, offsetHeight := 600, scrollHeight := 600 }

/-- Fixture: page state holding the two fixture entities, entity `"a"`
selected, no error, no regeneration in flight. -/
def sampleState : PageState :=
  { prompt := "a cat", debouncedPrompt := "a cat", images := [imgA, imgB],
    selectedImageId := some "a", error := none, isRegenerating := false }

/-- Fixture: a successful variation result carrying index `n` in its fields. -/
def okRes (n : Nat) : GeneratedImage :=
  { id := "v" ++ toString n, imageUrl := some ("urlV" ++ toString n),
    promptUsed := some ("variant " ++ toString n) }

/-- Fixture: a failed variation result (empty id, populated error). -/
def errRes : GeneratedImage :=
  { id := "", error := some "generation blew up", promptUsed := some "p" }

/-- Fixture: a variation result that did not succeed (no image URL) but also
carries no error field — `generateImage` produces exactly this shape when the
generation service responds without an image and without throwing. -/
def noUrlRes : GeneratedImage :=
  { id := "x0", imageUrl := none, promptUsed := some "p0", error := none }

/-- Fixture: an augmentation failure outcome of `getPromptVariants` (error
reported, no variants). -/
def pvFail : PromptVariantsResult := { variants := [], error := some "API down" }

/-- Fixture: a per-variant generation oracle that always succeeds (irrelevant
when augmentation fails, since no generation is attempted). -/
def genOracle : Nat → String → GeneratedImage :=
  fun n p => { id := "g" ++ toString n, imageUrl := some "urlG", promptUsed := some p }

/-! Helper lemmas about the list operations of the embedding. -/

theorem mapWithIndex_length {α β : Type} (f : Nat → α → β) (i : Nat)
    (l : List α) : (mapWithIndex f i l).length = l.length := by
  induction l generalizing i with
  | nil => rfl
  | cons a as ih => simp [mapWithIndex, ih]

theorem mapWithIndex_mapWithIndex {α β γ : Type} (f : Nat → β → γ)
    (g : Nat → α → β) (i : Nat) (l : List α) :
    mapWithIndex f i (mapWithIndex g i l) =
      mapWithIndex (fun j a => f j (g j a)) i l := by
  induction l generalizing i with
  | nil => rfl
  | cons a as ih => simp [mapWithIndex, ih]

theorem lt_length_of_getElem?_eq_some {α : Type} {l : List α} {n : Nat}
    {a : α} (h : l[n]? = some a) : n < l.length :=
  (List.getElem?_eq_some.mp h).1

/-- Under unique entity ids, entities found at two distinct indices have
distinct ids. -/
theorem id_ne_of_nodup_ids {l : List ImageInfo}
    (hnd : (l.map ImageInfo.id).Nodup) {j k : Nat} {a b : ImageInfo}
    (hj : l[j]? = some a) (hk : l[k]? = some b) (hne : j ≠ k) :
    a.id ≠ b.id := by
  intro hab
  apply hne
  have hj' : (l.map ImageInfo.id)[j]? = some a.id := by
    rw [List.getElem?_map ImageInfo.id l j, hj]; rfl
  have hk' : (l.map ImageInfo.id)[k]? = some b.id := by
    rw [List.getElem?_map ImageInfo.id l k, hk]; rfl
  have hlen : j < (l.map ImageInfo.id).length :=
    lt_length_of_getElem?_eq_some hj'
  exact List.getElem?_inj hlen hnd (by rw [hj', hk', hab])

/-- Behaviour of the `prevImages.map(img => img.id === targetId ? ... : img)`
pattern, indexwise: under unique ids, the entity at the target's index is
rewritten by `f` and every other index is untouched. -/
theorem map_ite_getElem {l : List ImageInfo} (tid : String)
    (f : ImageInfo → ImageInfo) (hnd : (l.map ImageInfo.id).Nodup) {j : Nat}
    {target : ImageInfo} (hj : l[j]? = some target) (hid : target.id = tid) :
    (l.map (fun img => if img.id = tid then f img else img))[j]? = some (f target) ∧
    ∀ k, k ≠ j →
      (l.map (fun img => if img.id = tid then f img else img))[k]? = l[k]? := by
  constructor
  · rw [List.getElem?_map _ l j, hj]
    simp [hid]
  · intro k hk
    rw [List.getElem?_map _ l k]
    cases hck : l[k]? with
    | none => rfl
    | some b =>
      have hbid : b.id ≠ tid := by
        rw [← hid]
        exact id_ne_of_nodup_ids hnd hck hj hk
      simp [hbid]

/-- A map of the above pattern whose update function preserves the id field
leaves the id list unchanged. -/
theorem map_ite_ids (l : List ImageInfo) (tid : String)
    (f : ImageInfo → ImageInfo) (hf : ∀ img, (f img).id = img.id) :
    ((l.map (fun img => if img.id = tid then f img else img)).map ImageInfo.id) =
      l.map ImageInfo.id := by
  induction l with
  | nil => rfl
  | cons x rest ih =>
    by_cases hx : x.id = tid <;> simp [hx, hf, ih]

/-- Membership for the `findIndex` test of the reconciliation loop. -/
theorem containsId_eq_true {l : List ImageInfo} {ph : ImageInfo}
    (hmem : ph ∈ l) {tid : String} (hid : ph.id = tid) :
    containsId l tid = true := by
  simp only [containsId, List.any_eq_true]
  exact ⟨ph, hmem, by simp [hid]⟩

/-- Under unique ids, removing the first entity with the target id is erasure
at the target's index. -/
theorem removeFirstById_eq_eraseIdx {tid : String} {l : List ImageInfo}
    (hnd : (l.map ImageInfo.id).Nodup) {j : Nat} {ph : ImageInfo}
    (hj : l[j]? = some ph) (hid : ph.id = tid) :
    removeFirstById tid l = l.eraseIdx j := by
  induction l generalizing j with
  | nil => simp at hj
  | cons x rest ih =>
    simp only [List.map_cons, List.nodup_cons] at hnd
    cases j with
    | zero =>
      simp only [List.getElem?_cons_zero, Option.some.injEq] at hj
      subst hj
      simp [removeFirstById, hid, List.eraseIdx]
    | succ j' =>
      simp only [List.getElem?_cons_succ] at hj
      have hxne : x.id ≠ tid := by
        intro hx
        apply hnd.1
        rw [hx, ← hid]
        exact List.mem_map_of_mem ImageInfo.id (List.getElem?_mem hj)
      simp only [removeFirstById, hxne, if_false, List.eraseIdx]
      rw [ih hnd.2 hj]

/-- Under unique ids, replacing the first entity with the target id in place
is `List.set` at the target's index. -/
theorem replaceFirstById_eq_set {tid : String} {l : List ImageInfo}
    (f : ImageInfo → ImageInfo) (hnd : (l.map ImageInfo.id).Nodup) {j : Nat}
    {ph : ImageInfo} (hj : l[j]? = some ph) (hid : ph.id = tid) :
    replaceFirstById tid f l = l.set j (f ph) := by
  induction l generalizing j with
  | nil => simp at hj
  | cons x rest ih =>
    simp only [List.map_cons, List.nodup_cons] at hnd
    cases j with
    | zero =>
      simp only [List.getElem?_cons_zero, Option.some.injEq] at hj
      subst hj
      simp [replaceFirstById, hid]
    | succ j' =>
      simp only [List.getElem?_cons_succ] at hj
      have hxne : x.id ≠ tid := by
        intro hx
        apply hnd.1
        rw [hx, ← hid]
        exact List.mem_map_of_mem ImageInfo.id (List.getElem?_mem hj)
      simp only [replaceFirstById, hxne, if_false, List.set_cons_succ]
      rw [ih hnd.2 hj]

/-- A reconciliation step over a failed result never sets the
`updateOccurred` flag. -/
theorem reconStep_snd_of_failed (pids : List String) (pp : String)
    (acc : List ImageInfo × Bool) (i : Nat) {r : GeneratedImage}
    (hr : resultFailed r = true) :
    (reconStep pids pp acc i r).2 = acc.2 := by
  unfold reconStep
  cases pids[i]? with
  | none => rfl
  | some tempId =>
    by_cases h1 : tempId = "" <;> by_cases h2 : containsId acc.1 tempId <;>
      simp [h1, h2, hr]

/-- When every result failed, the whole reconciliation fold leaves the
`updateOccurred` flag as it found it (in particular `false`). -/
theorem reconcileFrom_snd_of_all_failed (pids : List String) (pp : String)
    {results : List GeneratedImage}
    (hall : ∀ r ∈ results, resultFailed r = true) :
    ∀ (i : Nat) (acc : List ImageInfo × Bool),
      (reconcileFrom pids pp i acc results).2 = acc.2 := by
  induction results with
  | nil => intro i acc; rfl
  | cons r rs ih =>
    intro i acc
    rw [reconcileFrom]
    rw [ih (fun r' hr' => hall r' (List.mem_cons_of_mem r hr'))]
    exact reconStep_snd_of_failed pids pp acc i (hall r (List.mem_cons_self r rs))

theorem stringOrElse_some_self (s : String) : stringOrElse (some s) s = s := by
  by_cases h : s = "" <;> simp [stringOrElse, h]

/-- C10: the position-update operation invoked when a drag completes stores
the supplied position verbatim, with no clamping to container bounds — for
every id present in the collection and every position argument (even one
outside the container), the target entity's position becomes exactly the
argument while every other field of that entity, all other entities, the
selection, and all remaining page state are unchanged. -/
theorem updatePosition_stores_verbatim (st : PageState) (id : String)
    (pos : Position) (j : Nat) (target : ImageInfo)
    (hnd : (st.images.map ImageInfo.id).Nodup)
    (hj : st.images[j]? = some target) (hid : target.id = id) :
    (handleUpdatePosition st id pos).images[j]? =
      some { target with position := pos } ∧
    (∀ k, k ≠ j → (handleUpdatePosition st id pos).images[k]? = st.images[k]?) ∧
    (handleUpdatePosition st id pos).images.length = st.images.length ∧
    (handleUpdatePosition st id pos).selectedImageId = st.selectedImageId ∧
    (handleUpdatePosition st id pos).prompt = st.prompt ∧
    (handleUpdatePosition st id pos).debouncedPrompt = st.debouncedPrompt ∧
    (handleUpdatePosition st id pos).error = st.error ∧
    (handleUpdatePosition st id pos).isRegenerating = st.isRegenerating := by
  have h := map_ite_getElem id (fun img => { img with position := pos }) hnd hj hid
  exact ⟨h.1, h.2, by simp [handleUpdatePosition], rfl, rfl, rfl, rfl, rfl⟩

theorem updatePosition_stores_verbatim_witness :
    (handleUpdatePosition sampleState "a" { x := -50, y := 10000 }).images[0]? =
      some { imgA with position := { x := -50, y := 10000 } } :=
  (updatePosition_stores_verbatim sampleState "a" { x := -50, y := 10000 } 0 imgA
    (by decide) (by decide) rfl).1

/-- C7: duplication fails with a user error and leaves the collection
unchanged when the source entity is missing or the id capability yields an
empty id; otherwise it appends exactly one new entity copying the source's
src and prompt, with parentId the source id, not loading, not a placeholder,
positioned at the source position shifted right by
itemSize + duplication offset (150 + 25 = 175) then clamped to container
bounds, and selects the new entity. -/
theorem duplicate_spec :
    (∀ st container sourceImageId uuid,
      st.images.find? (fun img => img.id = sourceImageId) = none →
        handleDuplicateImage st container sourceImageId uuid =
          { st with error := some "Could not find the image to duplicate." }) ∧
    (∀ st container sourceImageId uuid sourceImage,
      st.images.find? (fun img => img.id = sourceImageId) = some sourceImage →
      uuid = "" →
        handleDuplicateImage st container sourceImageId uuid =
          { st with error := some "Failed to get image to duplicate." }) ∧
    ((IMAGE_SIZE + DUPLICATION_OFFSET : ℚ) = 175) ∧
    (∀ st container sourceImageId uuid sourceImage,
      st.images.find? (fun img => img.id = sourceImageId) = some sourceImage →
      uuid ≠ "" →
        handleDuplicateImage st container sourceImageId uuid =
          { st with
            error := none
            images := st.images ++
              [{ id := uuid
                 src := sourceImage.src
                 prompt := sourceImage.prompt
                 position := clampPositionToBounds
                   { x := sourceImage.position.x + IMAGE_SIZE + DUPLICATION_OFFSET
                     y := sourceImage.position.y } container IMAGE_SIZE
                 parentId := some sourceImageId
                 isLoading := false
                 isPlaceholder := false }]
            selectedImageId := some uuid }) := by
  refine ⟨?_, ?_, by norm_num [IMAGE_SIZE, DUPLICATION_OFFSET], ?_⟩
  · intro st container sourceImageId uuid hfind
    simp [handleDuplicateImage, hfind]
  · intro st container sourceImageId uuid sourceImage hfind huuid
    simp [handleDuplicateImage, hfind, huuid]
  · intro st container sourceImageId uuid sourceImage hfind huuid
    simp [handleDuplicateImage, hfind, huuid]

theorem duplicate_spec_witness :
    handleDuplicateImage sampleState (some sampleContainer) "a" "u1" =
      { sampleState with
        error := none
        images := sampleState.images ++
          [{ id := "u1"
             src := imgA.src
             prompt := imgA.prompt
             position := clampPositionToBounds
               { x := imgA.position.x + IMAGE_SIZE + DUPLICATION_OFFSET
                 y := imgA.position.y } (some sampleContainer) IMAGE_SIZE
             parentId := some "a"
             isLoading := false
             isPlaceholder := false }]
        selectedImageId := some "u1" } ∧
    clampPositionToBounds
        { x := imgA.position.x + IMAGE_SIZE + DUPLICATION_OFFSET
          y := imgA.position.y } (some sampleContainer) IMAGE_SIZE =
      { x := 275, y := 100 } :=
  ⟨duplicate_spec.2.2.2 sampleState (some sampleContainer) "a" "u1" imgA
      (by decide) (by decide),
   by
    simp only [clampPositionToBounds, sampleContainer, imgA, IMAGE_SIZE,
      DUPLICATION_OFFSET]
    norm_num⟩

/-- C8: `handleArrangeGrid` is idempotent — for a non-empty collection and
fixed container dimensions, applying the grid arrangement twice yields
exactly the state (in particular the positions) that applying it once
yields, because each position is a function of the index and the container
width only. -/
theorem arrangeGrid_idempotent (st : PageState) (c : Container)
    (h : st.images ≠ []) :
    handleArrangeGrid (handleArrangeGrid st (some c)) (some c) =
      handleArrangeGrid st (some c) := by
  have hlen : ¬ st.images.length = 0 := by
    simpa [List.length_eq_zero] using h
  have hlen2 : ¬ (mapWithIndex
      (fun i image => { image with position := arrangeGridPosition c.offsetWidth i })
      0 st.images).length = 0 := by
    rw [mapWithIndex_length]; exact hlen
  simp only [handleArrangeGrid, hlen, hlen2, if_false]
  rw [mapWithIndex_mapWithIndex]

theorem arrangeGrid_idempotent_witness :
    handleArrangeGrid (handleArrangeGrid sampleState (some sampleContainer))
        (some sampleContainer) =
      handleArrangeGrid sampleState (some sampleContainer) :=
  arrangeGrid_idempotent sampleState sampleContainer (by decide)

/-- C4: at most one regeneration is ever in flight — when the global latch is
set, a further regeneration attempt leaves the state untouched (it is ignored
rather than started); starting an attempt sets the latch; and the latch is
released on every completion path (success, failure, thrown exception alike),
so a subsequent regeneration may start. -/
theorem regeneration_latch_spec :
    (∀ st imageId newPrompt outcome, st.isRegenerating = true →
        handleRegenerateSelectedImage st imageId newPrompt outcome = st) ∧
    (∀ st imageId, st.isRegenerating = false →
        (regenBegin st imageId).2 = true ∧
        (regenBegin st imageId).1.isRegenerating = true) ∧
    (∀ st imageId newPrompt outcome,
        (regenFinish st imageId newPrompt outcome).isRegenerating = false) := by
  refine ⟨?_, ?_, ?_⟩
  · intro st imageId newPrompt outcome hlatch
    simp [handleRegenerateSelectedImage, regenBegin, hlatch]
  · intro st imageId hlatch
    simp [regenBegin, hlatch]
  · intro st imageId newPrompt outcome
    rfl

theorem regeneration_latch_spec_witness :
    handleRegenerateSelectedImage { sampleState with isRegenerating := true }
        "a" "p" (Except.error "boom") =
      { sampleState with isRegenerating := true } :=
  regeneration_latch_spec.1 { sampleState with isRegenerating := true }
    "a" "p" (Except.error "boom") rfl

/-- C9 (code bug): when the persistence capability reports an upstream
failure, `saveImageBlob` returns a populated error field rather than
throwing, so `handleSaveImage` — which discards the returned result and only
reacts to exceptions — surfaces no user-visible error (the page error stays
untouched) while still refreshing the saved-image catalog, contradicting the
claim (and the handler's own documentation) that the error is surfaced. -/
theorem saveImage_reported_error_ignored :
    (saveImageBlob
        { supabaseAvailable := true, fetchOk := true,
          uploadError := some "storage upload failed", updateError := none,
          thrown := none }).error = some "Failed to save Image" ∧
    handleSaveImage sampleState
        (Except.ok (saveImageBlob
          { supabaseAvailable := true, fetchOk := true,
            uploadError := some "storage upload failed", updateError := none,
            thrown := none })) = (sampleState, true) ∧
    (handleSaveImage sampleState
        (Except.ok (saveImageBlob
          { supabaseAvailable := true, fetchOk := true,
            uploadError := some "storage upload failed", updateError := none,
            thrown := none }))).1.error = none :=
  ⟨rfl, rfl, rfl⟩

/-- C1 (counterexample): on an upstream augmentation failure,
`generateImageVariations` does not return four pseudo-results — at the
concrete failure outcome `pvFail` the returned list has length 1, not 4. -/
theorem variations_augmentation_failure_not_four :
    ¬ (generateImageVariations pvFail genOracle "a cat").length = 4 := by
  decide

/-- C1 (amended): on an upstream augmentation failure (error reported or no
variants), `generateImageVariations` returns a single uniform error
pseudo-result with a populated error field; the page-level cleanup then
removes the first placeholder through the per-index path and strips the
remaining placeholders through the aggregate-failure path, ending with no
placeholders and the aggregate error (demonstrated on the concrete
fixture). -/
theorem variations_augmentation_failure_single_error
    (pv : PromptVariantsResult) (gen : Nat → String → GeneratedImage)
    (originalPrompt : String) (h : augmentationFailed pv = true) :
    generateImageVariations pv gen originalPrompt =
      [{ id := ""
         imageUrl := none
         promptUsed := some originalPrompt
         error := some ("Prompt Variation Generation failed: " ++
           stringOrElse pv.error "Failed to get prompt variants.") }] ∧
    handleGenerateVariations sampleState (some sampleContainer) 7 "a" "a cat"
        (generateImageVariations pvFail genOracle "a cat") =
      { sampleState with error := some "Generation of variants failed" } := by
  constructor
  · simp [generateImageVariations, h]
  · simp only [handleGenerateVariations, generateImageVariations, pvFail,
      genOracle, augmentationFailed, optStringTruthy, stringOrElse,
      sampleState, imgA, imgB, sampleContainer, makeVariationPlaceholders,
      variationOffsets, variationPlaceholderId, mapWithIndex,
      clampPositionToBounds, IMAGE_SIZE, GRID_GAP, reconcileVariationResults,
      reconcileFrom, reconStep, containsId, resultFailed, removeFirstById,
      replaceFirstById, promotePlaceholder, firstResultHasError]
    norm_num
    decide

theorem variations_augmentation_failure_single_error_witness :
    generateImageVariations pvFail genOracle "a cat" =
      [{ id := ""
         imageUrl := none
         promptUsed := some "a cat"
         error := some "Prompt Variation Generation failed: API down" }] :=
  ((variations_augmentation_failure_single_error pvFail genOracle "a cat"
      (by decide)).1).trans (by decide)

/-- C5: whenever the debounced prompt settles, a regeneration is attempted
exactly when (a) an entity is selected (the selection refers to an entity of
the collection), (b) the debounced prompt is non-empty after trimming
whitespace, (c) no regeneration is in flight, and (d) the debounced prompt
differs from the selected entity's stored prompt.  Stated under the system
invariants that entity ids are unique and non-empty. -/
theorem regeneration_trigger_iff (st : PageState)
    (hnd : (st.images.map ImageInfo.id).Nodup)
    (hne : ∀ img ∈ st.images, img.id ≠ "") :
    regenerationTriggered st = true ↔
      ∃ selectedImage ∈ st.images,
        st.selectedImageId = some selectedImage.id ∧
        jsTrim st.debouncedPrompt ≠ "" ∧
        st.isRegenerating = false ∧
        selectedImage.prompt ≠ st.debouncedPrompt := by
  constructor
  · intro h
    unfold regenerationTriggered at h
    cases hsel : st.selectedImageId with
    | none => rw [hsel] at h; simp at h
    | some sid =>
      rw [hsel] at h
      have h2 : (if sid ≠ "" ∧ jsTrim st.debouncedPrompt ≠ "" ∧
          st.isRegenerating = false then
            match st.images.find? (fun img => img.id = sid) with
            | some selectedImage =>
              decide (selectedImage.prompt ≠ st.debouncedPrompt)
            | none => false
          else false) = true := h
      by_cases hcond : sid ≠ "" ∧ jsTrim st.debouncedPrompt ≠ "" ∧
          st.isRegenerating = false
      · rw [if_pos hcond] at h2
        cases hfind : st.images.find? (fun img => img.id = sid) with
        | none => rw [hfind] at h2; simp at h2
        | some sel =>
          rw [hfind] at h2
          have hmem := List.mem_of_find?_eq_some hfind
          have hsid : sel.id = sid := by
            have := List.find?_some hfind
            simpa using this
          refine ⟨sel, hmem, by rw [hsid], hcond.2.1, hcond.2.2, ?_⟩
          simpa using h2
      · rw [if_neg hcond] at h2; simp at h2
  · rintro ⟨sel, hmem, hsel, htrim, hreg, hprompt⟩
    unfold regenerationTriggered
    rw [hsel]
    show (if sel.id ≠ "" ∧ jsTrim st.debouncedPrompt ≠ "" ∧
        st.isRegenerating = false then
          match st.images.find? (fun img => img.id = sel.id) with
          | some selectedImage =>
            decide (selectedImage.prompt ≠ st.debouncedPrompt)
          | none => false
        else false) = true
    rw [if_pos ⟨hne sel hmem, htrim, hreg⟩]
    have hex : (st.images.find? (fun img => img.id = sel.id)).isSome :=
      List.find?_isSome.mpr ⟨sel, hmem, by simp⟩
    obtain ⟨e, he⟩ := Option.isSome_iff_exists.mp hex
    have hemem := List.mem_of_find?_eq_some he
    have heid : e.id = sel.id := by
      have := List.find?_some he
      simpa using this
    have heq : e = sel := List.inj_on_of_nodup_map hnd hemem hmem heid
    rw [he, heq]
    simpa using hprompt

theorem regeneration_trigger_iff_witness :
    regenerationTriggered { sampleState with debouncedPrompt := "a red cat" } =
      true :=
  (regeneration_trigger_iff { sampleState with debouncedPrompt := "a red cat" }
      (by decide) (by decide)).mpr
    ⟨imgA, by decide, rfl, by decide, rfl, by decide⟩

/-- C6: when a regeneration's generation call returns a usable image URL, the
target entity is replaced in place — its id becomes the result's (new) id,
its src the returned URL, its prompt the prompt used, its loading and
placeholder flags are cleared (position and parentId are kept, being part of
the in-place update) — every other entity is untouched, and the selection
moves to the new id, still pointing at the same slot index.  Stated under the
system invariant of unique ids and the generation contract that `promptUsed`
echoes the prompt passed. -/
theorem regenerate_success_replaces_in_place (st : PageState)
    (imageId newPrompt : String) (result : GeneratedImage) (url : String)
    (j : Nat) (target : ImageInfo)
    (hreg : st.isRegenerating = false)
    (hnd : (st.images.map ImageInfo.id).Nodup)
    (hj : st.images[j]? = some target) (hid : target.id = imageId)
    (hurl : result.imageUrl = some url) (hurlne : url ≠ "")
    (hpu : result.promptUsed = some newPrompt)
    (hnew : result.id ≠ imageId) :
    (handleRegenerateSelectedImage st imageId newPrompt (Except.ok result)).images[j]? =
      some { target with
             id := result.id
             src := url
             prompt := newPrompt
             isLoading := false
             isPlaceholder := false } ∧
    (∀ k, k ≠ j →
      (handleRegenerateSelectedImage st imageId newPrompt (Except.ok result)).images[k]? =
        st.images[k]?) ∧
    (handleRegenerateSelectedImage st imageId newPrompt (Except.ok result)).images.length =
      st.images.length ∧
    (handleRegenerateSelectedImage st imageId newPrompt (Except.ok result)).selectedImageId =
      some result.id ∧
    (handleRegenerateSelectedImage st imageId newPrompt (Except.ok result)).isRegenerating =
      false := by
  have htruthy : optStringTruthy result.imageUrl = true := by
    rw [hurl]; simp [optStringTruthy, hurlne]
  have hunfold : handleRegenerateSelectedImage st imageId newPrompt (Except.ok result) =
      { st with
        error := none
        images := (setLoadingById st.images imageId true).map (fun img =>
          if img.id = imageId then
            { img with
              id := result.id
              src := result.imageUrl.getD ""
              prompt := stringOrElse result.promptUsed newPrompt
              isLoading := false
              isPlaceholder := false }
          else img)
        selectedImageId := some result.id
        isRegenerating := false } := by
    simp [handleRegenerateSelectedImage, regenBegin, regenFinish, hreg, htruthy]
  have h1 := map_ite_getElem imageId (fun img => { img with isLoading := true })
    hnd hj hid
  have hnd1 : ((setLoadingById st.images imageId true).map ImageInfo.id).Nodup := by
    rw [show setLoadingById st.images imageId true =
        st.images.map (fun img =>
          if img.id = imageId then { img with isLoading := true } else img) from rfl]
    rw [map_ite_ids st.images imageId (fun img => { img with isLoading := true })
      (fun img => rfl)]
    exact hnd
  have h1j : (setLoadingById st.images imageId true)[j]? =
      some { target with isLoading := true } := h1.1
  have hid1 : ({ target with isLoading := true } : ImageInfo).id = imageId := hid
  have h2 := map_ite_getElem imageId
    (fun img =>
      { img with
        id := result.id
        src := result.imageUrl.getD ""
        prompt := stringOrElse result.promptUsed newPrompt
        isLoading := false
        isPlaceholder := false })
    hnd1 h1j hid1
  constructor
  · rw [hunfold]
    rw [h2.1, hurl, hpu]
    simp [stringOrElse_some_self]
  refine ⟨?_, ?_, ?_, ?_⟩
  · intro k hk
    rw [hunfold]
    have := h2.2 k hk
    rw [this]
    exact h1.2 k hk
  · rw [hunfold]
    simp [setLoadingById]
  · rw [hunfold]
  · rw [hunfold]

theorem regenerate_success_replaces_in_place_witness :
    (handleRegenerateSelectedImage sampleState "a" "a red cat"
        (Except.ok { id := "n1"
                     imageUrl := some "urlN"
                     promptUsed := some "a red cat" })).images[0]? =
      some { imgA with
             id := "n1"
             src := "urlN"
             prompt := "a red cat"
             isLoading := false
             isPlaceholder := false } :=
  (regenerate_success_replaces_in_place sampleState "a" "a red cat"
    { id := "n1", imageUrl := some "urlN", promptUsed := some "a red cat" }
    "urlN" 0 imgA rfl (by decide) (by decide) rfl rfl (by decide) rfl
    (by decide)).1

/-- C2: variation reconciliation — a result whose placeholder (located by its
derived id) is gone is skipped; a result with an error or missing id/url
removes its placeholder; a successful result replaces its placeholder in
place (same index, keeping position and parentId) with the result's id, url
and prompt and cleared flags; and, concretely, reconciling 4 placeholders
against 2 successes and 2 errors leaves exactly the 2 promoted entities at
the success slots, none at the error slots, and raises no aggregate error. -/
theorem variation_reconciliation_spec :
    (∀ pids pp (acc : List ImageInfo × Bool) i r tempId,
       pids[i]? = some tempId →
       containsId acc.1 tempId = false →
       reconStep pids pp acc i r = acc) ∧
    (∀ pids pp (images : List ImageInfo) (b : Bool) i r tempId j ph,
       pids[i]? = some tempId → tempId ≠ "" →
       (images.map ImageInfo.id).Nodup →
       images[j]? = some ph → ph.id = tempId →
       resultFailed r = true →
       reconStep pids pp (images, b) i r = (images.eraseIdx j, b)) ∧
    (∀ pids pp (images : List ImageInfo) (b : Bool) i r tempId j ph,
       pids[i]? = some tempId → tempId ≠ "" →
       (images.map ImageInfo.id).Nodup →
       images[j]? = some ph → ph.id = tempId →
       resultFailed r = false →
       reconStep pids pp (images, b) i r =
         (images.set j
           { id := r.id
             src := r.imageUrl.getD ""
             prompt := stringOrElse r.promptUsed ("Variant of: " ++ pp)
             position := ph.position
             parentId := ph.parentId
             isLoading := false
             isPlaceholder := false }, true)) ∧
    handleGenerateVariations sampleState (some sampleContainer) 7 "a" "a cat"
        [okRes 0, errRes, okRes 2, errRes] =
      { sampleState with
        images := [imgA, imgB,
          { id := "v0"
            src := "urlV0"
            prompt := "variant 0"
            position := { x := 100, y := 0 }
            parentId := some "a"
            isLoading := false
            isPlaceholder := false },
          { id := "v2"
            src := "urlV2"
            prompt := "variant 2"
            position := { x := 0, y := 100 }
            parentId := some "a"
            isLoading := false
            isPlaceholder := false }] } := by
  refine ⟨?_, ?_, ?_, ?_⟩
  · intro pids pp acc i r tempId hpids hcontains
    by_cases ht : tempId = "" <;> simp [reconStep, hpids, ht, hcontains]
  · intro pids pp images b i r tempId j ph hpids htne hnd hj hid hfail
    have hcont : containsId images tempId = true :=
      containsId_eq_true (List.getElem?_mem hj) hid
    simp only [reconStep, hpids, htne, if_false, hcont, if_true, hfail]
    rw [removeFirstById_eq_eraseIdx hnd hj hid]
  · intro pids pp images b i r tempId j ph hpids htne hnd hj hid hfail
    have hcont : containsId images tempId = true :=
      containsId_eq_true (List.getElem?_mem hj) hid
    simp only [reconStep, hpids, htne, if_false, hcont, if_true, hfail,
      Bool.false_eq_true]
    rw [replaceFirstById_eq_set (promotePlaceholder pp r) hnd hj hid]
    rfl
  · simp only [handleGenerateVariations, sampleState, imgA, imgB,
      sampleContainer, makeVariationPlaceholders, variationOffsets,
      variationPlaceholderId, mapWithIndex, clampPositionToBounds, IMAGE_SIZE,
      GRID_GAP, reconcileVariationResults, reconcileFrom, reconStep,
      containsId, resultFailed, removeFirstById, replaceFirstById,
      promotePlaceholder, firstResultHasError, optStringTruthy, stringOrElse,
      okRes, errRes]
    norm_num
    decide

theorem variation_reconciliation_spec_witness :
    reconStep ["missing-placeholder"] "a cat" ([imgA], false) 0 errRes =
      ([imgA], false) :=
  variation_reconciliation_spec.1 ["missing-placeholder"] "a cat"
    ([imgA], false) 0 errRes "missing-placeholder" rfl (by decide)

/-- C3 (counterexample): a fan-out with zero successes and at least one
error — but whose first result carries no error field (a generation that
returned no image without throwing) — surfaces no aggregate error and leaves
the two placeholders whose indices exceed the result count in the
collection, contradicting the claim. -/
theorem variations_total_failure_counterexample :
    (∀ r ∈ [noUrlRes, errRes], resultFailed r = true) ∧
    ([noUrlRes, errRes].any (fun r => optStringTruthy r.error)) = true ∧
    (handleGenerateVariations sampleState (some sampleContainer) 7 "a" "a cat"
        [noUrlRes, errRes]).error = none ∧
    ((handleGenerateVariations sampleState (some sampleContainer) 7 "a" "a cat"
        [noUrlRes, errRes]).images.filter
          (fun img => img.isPlaceholder)).length = 2 := by
  refine ⟨by decide, by decide, ?_, ?_⟩ <;>
  · simp only [handleGenerateVariations, sampleState, imgA, imgB,
      sampleContainer, makeVariationPlaceholders, variationOffsets,
      variationPlaceholderId, mapWithIndex, clampPositionToBounds, IMAGE_SIZE,
      GRID_GAP, reconcileVariationResults, reconcileFrom, reconStep,
      containsId, resultFailed, removeFirstById, replaceFirstById,
      promotePlaceholder, firstResultHasError, optStringTruthy, stringOrElse,
      noUrlRes, errRes]
    norm_num
    try decide

/-- C3 (amended): when zero results succeeded, the result list is non-empty
and its first result carries an error — the shape actually produced by a
total upstream failure — exactly one aggregate error is surfaced and every
remaining placeholder of the fan-out (identified by its derived id) is
removed from the collection. -/
theorem variations_total_failure_amended (st : PageState)
    (container : Option Container) (now : Nat) (parentId parentPrompt : String)
    (results : List GeneratedImage) (parentImage : ImageInfo)
    (hfind : st.images.find? (fun img => img.id = parentId) = some parentImage)
    (hall : ∀ r ∈ results, resultFailed r = true)
    (hfirst : firstResultHasError results = true) :
    (handleGenerateVariations st container now parentId parentPrompt
        results).error = some "Generation of variants failed" ∧
    ∀ img ∈ (handleGenerateVariations st container now parentId parentPrompt
        results).images,
      ¬ img.id ∈ (makeVariationPlaceholders parentId parentPrompt
          parentImage.position container now).map ImageInfo.id := by
  have hisEmpty : results.isEmpty = false := by
    cases results with
    | nil => simp [firstResultHasError] at hfirst
    | cons r rs => rfl
  have hsnd : ∀ imgs : List ImageInfo,
      (reconcileVariationResults
        ((makeVariationPlaceholders parentId parentPrompt parentImage.position
          container now).map ImageInfo.id) parentPrompt imgs results).2 = false :=
    fun imgs => reconcileFrom_snd_of_all_failed _ _ hall 0 (imgs, false)
  have hunfold : handleGenerateVariations st container now parentId
      parentPrompt results =
      { st with
        images := (reconcileVariationResults
            ((makeVariationPlaceholders parentId parentPrompt
              parentImage.position container now).map ImageInfo.id)
            parentPrompt
            (st.images ++ makeVariationPlaceholders parentId parentPrompt
              parentImage.position container now)
            results).1.filter (fun img =>
              !((makeVariationPlaceholders parentId parentPrompt
                parentImage.position container now).map ImageInfo.id).contains
                  img.id)
        error := some "Generation of variants failed" } := by
    simp only [handleGenerateVariations, hfind]
    rw [hsnd, hisEmpty, hfirst]
    simp
  rw [hunfold]
  refine ⟨rfl, ?_⟩
  intro img hmem hin
  have hcont : ((makeVariationPlaceholders parentId parentPrompt
      parentImage.position container now).map ImageInfo.id).contains img.id =
      false := by
    simpa using (List.mem_filter.mp hmem).2
  have htrue : ((makeVariationPlaceholders parentId parentPrompt
      parentImage.position container now).map ImageInfo.id).contains img.id =
      true := List.elem_iff.mpr hin
  rw [htrue] at hcont
  simp at hcont

theorem variations_total_failure_amended_witness :
    (handleGenerateVariations sampleState (some sampleContainer) 7 "a" "a cat"
        [errRes, errRes]).error = some "Generation of variants failed" :=
  (variations_total_failure_amended sampleState (some sampleContainer) 7 "a"
    "a cat" [errRes, errRes] imgA (by decide) (by decide) (by decide)).1
